import Mathlib

/-!
Verification of the identity-resolution logic of the smart-zoneminder
repository, as a shallow embedding of the two source programs
`face-det-rec/face_det_rec.py` (embedding-voting path) and
`person-class/person_classifier_server.py` (classifier path).

External collaborators (OpenCV, dlib/face_recognition, TensorFlow) are
modelled as function-valued parameters; floating-point constants and scores
are modelled as exact rationals.
-/

namespace SZ

/-- `COMPARE_FACES_TOLERANCE = 0.57` (face_det_rec.py line 33), written as
an exact fraction (`Rat.divInt` rather than `/` so that it evaluates by
kernel reduction). -/
def COMPARE_FACES_TOLERANCE : ℚ := Rat.divInt 57 100

/-- `NAME_THRESHOLD = 0.20` (face_det_rec.py line 49), the vote-margin
fraction, written as an exact fraction. -/
def NAME_THRESHOLD : ℚ := Rat.divInt 1 5

/-- `FOCUS_MEASURE_THRESHOLD = 1000` (face_det_rec.py line 52). -/
def FOCUS_MEASURE_THRESHOLD : ℚ := 1000

/-- The tolerance constant is the decimal 0.57. -/
theorem COMPARE_FACES_TOLERANCE_eq : COMPARE_FACES_TOLERANCE = 57 / 100 := by
  rw [COMPARE_FACES_TOLERANCE, Rat.divInt_eq_div]
  norm_num

/-- The margin constant is the decimal 0.20. -/
theorem NAME_THRESHOLD_eq : NAME_THRESHOLD = 1 / 5 := by
  rw [NAME_THRESHOLD, Rat.divInt_eq_div]
  norm_num

/-- The comparison `x + m * y < z` of the margin test, implemented by
cross-multiplication with the (positive) denominator of `m` over `Int`, so
that it evaluates by kernel reduction; `addMulLt_iff` below proves it equal
to the rational comparison. -/
def addMulLt (x : ℕ) (m : ℚ) (y z : ℕ) : Bool :=
  decide ((x : Int) * (m.den : Int) + m.num * (y : Int) < (z : Int) * (m.den : Int))

/-- Keys of a Python dict built by inserting the elements of `l` in order:
the distinct elements of `l` in order of first occurrence.  Models the keys
of `counts = {n: 0 for n in data['names']}` (face_det_rec.py line 157). -/
def pyDictKeysAux (seen : List String) : List String → List String
  | [] => []
  | n :: rest =>
    if n ∈ seen then pyDictKeysAux seen rest
    else n :: pyDictKeysAux (seen ++ [n]) rest

/-- Keys of a Python dict built by inserting the elements of `l` in order. -/
def pyDictKeys (l : List String) : List String :=
  pyDictKeysAux [] l

/-- The gallery names at the matched indexes: models the list of values
taken by `name` in the loop over `matchedIdxs` (face_det_rec.py lines
154-163), with `ms` index-aligned to `names`. -/
def matchedNames (names : List String) (ms : List Bool) : List String :=
  (names.zip ms).filterMap (fun p => if p.2 then some p.1 else none)

/-- `counts[n]` after the tally loop (face_det_rec.py lines 157-163). -/
def countsOf (names : List String) (ms : List Bool) (n : String) : ℕ :=
  (matchedNames names ms).count n

/-- `max_value = max(counts.values())` (face_det_rec.py line 166);
`0` for an empty dict (unreachable in the program, where a match exists). -/
def maxCount (names : List String) (ms : List Bool) : ℕ :=
  ((pyDictKeys names).map (countsOf names ms)).foldl Nat.max 0

/-- `max_name = max(counts, key=counts.get)` (face_det_rec.py line 167):
Python's `max` returns the first key, in dict insertion order, attaining
the maximal count. -/
def pyMaxName (names : List String) (ms : List Bool) : Option String :=
  (pyDictKeys names).find? (fun k => countsOf names ms k == maxCount names ms)

/-- The `all(name_thresholds)` test (face_det_rec.py lines 173-177): for
every label other than `max_name`, `max_value > value + margin *
name_count[max_name]`, where `name_count` counts the full gallery
population of a label (lines 66-68).  Note the code scales the margin by
the population of the WINNING label `max_name`. -/
def marginOK (names : List String) (margin : ℚ) (ms : List Bool) (maxN : String) : Bool :=
  ((pyDictKeys names).filter (fun n => n != maxN)).all
    (fun n => addMulLt (countsOf names ms n) margin (names.count maxN) (maxCount names ms))

/-- The acceptance test exactly as the specification words it: the margin is
scaled by each COMPETING label's gallery population `name_count[L]`, not by
the winner's.  Written from the spec for comparison with `marginOK`, which
is what the code implements. -/
def specMarginAccept (names : List String) (margin : ℚ) (ms : List Bool) (maxN : String) : Bool :=
  ((pyDictKeys names).filter (fun n => n != maxN)).all
    (fun n => addMulLt (countsOf names ms n) margin (names.count n) (maxCount names ms))

/-- The embedding-voting resolver for one face embedding, starting from the
per-gallery-entry match booleans (face_det_rec.py lines 141-180): if no
entry matched the outcome is the string `"Unknown"`; otherwise the top-voted
name wins iff it passes the margin test against every other label, and the
outcome is no-decision (`none`, Python `None`) when the test fails.  The
`pyMaxName = none` case only arises for an empty vote dict, unreachable in
the program since `ms` is index-aligned with a gallery that has a
matching entry. -/
def resolveFromMatches (names : List String) (margin : ℚ) (ms : List Bool) :
    Option String :=
  if ms.any id then
    match pyMaxName names ms with
    | some maxN => if marginOK names margin ms maxN then some maxN else none
    | none => none
  else
    some "Unknown"

/-- `face_recognition.compare_faces(gallery, e, tol)`: one boolean per
gallery entry, true when the entry's distance to `e` is at most `tol`.
The distance function itself is an external collaborator. -/
def compare_faces {α : Type} (dist : α → α → ℚ) (gallery : List α) (e : α) (tol : ℚ) :
    List Bool :=
  gallery.map (fun g => decide (dist g e ≤ tol))

/-! ## Images, numpy slicing, and the batch orchestration of face_det_rec.py -/

/-- A loaded colour image: height, width (`img.shape`, always 3 channels in
this model) and an abstract content token distinguishing images of equal
size. -/
structure Image where
  h : Nat
  w : Nat
  data : Nat
deriving DecidableEq

/-- Normalisation of one Python/numpy slice endpoint `i` for an axis of
length `n`: negative endpoints count from the end, and endpoints are
clipped into `[0, n]`. -/
def normIdx (n : Nat) (i : Int) : Nat :=
  if i < 0 then (i + n).toNat else min i.toNat n

/-- Length of the numpy basic slice `a:b` (step 1) on an axis of length
`n`: `max 0 (normIdx b - normIdx a)` (truncated subtraction). -/
def sliceLen (n : Nat) (a b : Int) : Nat :=
  normIdx n b - normIdx n a

/-- A detection box as passed in the request metadata:
`{"xmin","ymin","xmax","ymax"}` pixel coordinates. -/
structure BBox where
  xmin : Int
  ymin : Int
  xmax : Int
  ymax : Int
deriving DecidableEq

/-- The region of interest `img[ymin:ymax, xmin:xmax]` as a crop
specification handed to the external image collaborators
(face_det_rec.py lines 95-99; person_classifier_server.py lines 108-112). -/
structure Roi where
  img : Image
  r0 : Int
  r1 : Int
  c0 : Int
  c1 : Int
deriving DecidableEq

/-- The crop `img[ymin:ymax, xmin:xmax, :]` of a box. -/
def labelRoi (img : Image) (b : BBox) : Roi :=
  ⟨img, b.ymin, b.ymax, b.xmin, b.xmax⟩

/-- `roi.size`: the element count of the sliced array, rows times columns
times the 3 colour channels. -/
def roiSize (img : Image) (b : BBox) : Nat :=
  sliceLen img.h b.ymin b.ymax * sliceLen img.w b.xmin b.xmax * 3

/-- One face location `(top, right, bottom, left)` as returned by
`face_recognition.face_locations`. -/
structure FaceBox where
  top : Nat
  right : Nat
  bottom : Nat
  left : Nat
deriving DecidableEq

/-- One detection label of the request metadata.  `face` is
`none` while the key is absent, `some none` once the code stored Python
`None`, and `some (some s)` once it stored a string. -/
structure DetLabel where
  name : String
  box : BBox
  face : Option (Option String) := none
deriving DecidableEq

/-- One image record of the request metadata: source path plus labels. -/
structure ImageRecord where
  image : String
  labels : List DetLabel
deriving DecidableEq

/-- The pickled gallery `data`: `names` and `encodings`, index-aligned.
Encodings are abstract tokens compared only through the collaborator
distance function. -/
structure GalleryData where
  names : List String
  encodings : List Nat
deriving DecidableEq

/-- The external collaborators of face_det_rec.py: `cv2.imread` (`none`
models a failed read), `face_recognition.face_locations` on the RGB crop,
the Laplacian-variance focus measure of the grayscale crop of one face box
inside the roi, `face_recognition.face_encodings` for a list of face boxes,
and `face_recognition.face_distance` between two encodings. -/
structure Collab where
  imread : String → Option Image
  faceLocations : Roi → List FaceBox
  focusMeasure : Roi → FaceBox → ℚ
  faceEncodings : Roi → List FaceBox → List Nat
  dist : Nat → Nat → ℚ

/-- Resolution of one face encoding against the gallery
(face_det_rec.py lines 143-180). -/
def resolveEncoding (c : Collab) (g : GalleryData) (e : Nat) : Option String :=
  resolveFromMatches g.names NAME_THRESHOLD
    (compare_faces c.dist g.encodings e COMPARE_FACES_TOLERANCE)

/-- Processing of one detection label (face_det_rec.py lines 88-183).
`st` is the current value of the Python variable `name`, which is shared
across loop iterations (it is only reassigned inside the blur branch and
the per-encoding loop); the result pairs the updated label with the updated
variable.  Note that when the encodings list is empty the loop body never
runs and `label['face']` receives the stale value of `name`. -/
def personStep (c : Collab) (g : GalleryData) (img : Image) (st : Option String)
    (lab : DetLabel) : DetLabel × Option String :=
  if lab.name = "person" then
    if roiSize img lab.box = 0 then
      ({ lab with face := some none }, st)
    else
      match c.faceLocations (labelRoi img lab.box) with
      | [] => ({ lab with face := some none }, st)
      | fb :: rest =>
        if c.focusMeasure (labelRoi img lab.box) fb < FOCUS_MEASURE_THRESHOLD then
          ({ lab with face := some none }, none)
        else
          ({ lab with face := some ((c.faceEncodings (labelRoi img lab.box) (fb :: rest)).foldl
              (fun _ e => resolveEncoding c g e) st) },
            (c.faceEncodings (labelRoi img lab.box) (fb :: rest)).foldl
              (fun _ e => resolveEncoding c g e) st)
  else
    (lab, st)

/-- The label loop of one image, threading the `name` variable. -/
def processLabels (c : Collab) (g : GalleryData) (img : Image) :
    Option String → List DetLabel → List DetLabel × Option String
  | st, [] => ([], st)
  | st, l :: ls =>
    let p := personStep c g img st l
    let q := processLabels c g img p.2 ls
    (p.1 :: q.1, q.2)

/-- Processing of one image record (face_det_rec.py lines 83-186).  The
code unpacks `img.shape` with no `None` check, so a failed `cv2.imread`
raises `AttributeError` and kills the process: modelled as `Except.error`. -/
def processImage (c : Collab) (g : GalleryData) (st : Option String)
    (rec : ImageRecord) : Except String (ImageRecord × Option String) :=
  match c.imread rec.image with
  | none => Except.error "AttributeError"
  | some img =>
    let p := processLabels c g img st rec.labels
    Except.ok (⟨rec.image, p.1⟩, p.2)

/-- The batch loop of face_det_rec.py over all command-line image records.
An error on any image aborts the whole batch: no output is produced. -/
def processAll (c : Collab) (g : GalleryData) :
    Option String → List ImageRecord → Except String (List ImageRecord × Option String)
  | st, [] => Except.ok ([], st)
  | st, r :: rs => do
    let p ← processImage c g st r
    let q ← processAll c g p.2 rs
    Except.ok (p.1 :: q.1, q.2)

/-! ## The classifier path of person_classifier_server.py -/

/-- One detection label in the classifier path; `faceProba` is added only
when inference actually ran. -/
structure CLabel where
  name : String
  box : BBox
  face : Option (Option String) := none
  faceProba : Option ℚ := none
deriving DecidableEq

/-- One image record in the classifier path. -/
structure CRecord where
  image : String
  labels : List CLabel
deriving DecidableEq

/-- External collaborators of the classifier path: `cv2.imread` and the
composite of resize, preprocessing and the TensorFlow session run, which
yields the softmax probability vector for a crop. -/
structure CCollab where
  imread : String → Option Image
  infer : Roi → List ℚ

/-- `np.argmax` accumulator: current index, best (index, value); the best
is replaced only on a strictly larger value, so the FIRST maximal index
wins. -/
def argmaxPair : List ℚ → Nat → Nat × ℚ → Nat × ℚ
  | [], _, b => b
  | x :: xs, i, b => if b.2 < x then argmaxPair xs (i + 1) (i, x) else argmaxPair xs (i + 1) b

/-- `j = np.argmax(predictions)`: index of the first maximal element
(0 on the empty list, which cannot occur for a softmax output). -/
def argmaxIdx (l : List ℚ) : Nat :=
  match l with
  | [] => 0
  | x :: xs => (argmaxPair xs 1 (0, x)).1

/-- Processing of one label by `DetectRPC.detect_faces`
(person_classifier_server.py lines 93-154): non-person labels are left
untouched; a failed read or an empty roi stores `face = None` and moves
on without a `faceProba`; otherwise inference runs, `j = np.argmax`,
`proba = predictions[j]`, `person = LABEL_MAP[j]`, and the label gains
`face` (the name when `proba >= MIN_PROBA`, else `None`) and
`faceProba = proba`. -/
def classifyLabel (cc : CCollab) (labelMap : List String) (minProba : ℚ)
    (imgPath : String) (lab : CLabel) : CLabel :=
  if lab.name = "person" then
    match cc.imread imgPath with
    | none => { lab with face := some none }
    | some img =>
      if roiSize img lab.box = 0 then
        { lab with face := some none }
      else
        let preds := cc.infer (labelRoi img lab.box)
        let j := argmaxIdx preds
        let proba := preds.getD j 0
        let person := labelMap.getD j ""
        { lab with
            face := some (if minProba ≤ proba then some person else none),
            faceProba := some proba }
  else
    lab

/-- Processing of one record by `DetectRPC.detect_faces`. -/
def classifyRecord (cc : CCollab) (labelMap : List String) (minProba : ℚ)
    (r : CRecord) : CRecord :=
  ⟨r.image, r.labels.map (classifyLabel cc labelMap minProba r.image)⟩

/-- `DetectRPC.detect_faces` over a whole batch
(person_classifier_server.py lines 88-160): every record is processed and
appended; nothing aborts the batch. -/
def detect_faces (cc : CCollab) (labelMap : List String) (minProba : ℚ)
    (objs : List CRecord) : List CRecord :=
  objs.map (classifyRecord cc labelMap minProba)

/-! ## Supporting lemmas -/

/-- The cross-multiplied integer comparison `addMulLt` coincides with the
rational comparison `x + m * y < z`. -/
theorem addMulLt_iff (x : ℕ) (m : ℚ) (y z : ℕ) :
    addMulLt x m y z = true ↔ (x : ℚ) + m * (y : ℚ) < (z : ℚ) := by
  have hden : (0 : ℚ) < (m.den : ℚ) := by exact_mod_cast m.den_pos
  have hmden : m * (m.den : ℚ) = (m.num : ℚ) :=
    (eq_div_iff (ne_of_gt hden)).mp (Rat.num_div_den m).symm
  unfold addMulLt
  rw [decide_eq_true_eq]
  have h2 : ((x : ℚ) + m * (y : ℚ) < (z : ℚ)) ↔
      (((x : ℚ) + m * (y : ℚ)) * (m.den : ℚ) < (z : ℚ) * (m.den : ℚ)) :=
    (mul_lt_mul_right hden).symm
  have h3 : ((x : ℚ) + m * (y : ℚ)) * (m.den : ℚ)
      = (x : ℚ) * (m.den : ℚ) + (m.num : ℚ) * (y : ℚ) := by
    rw [add_mul, mul_right_comm, hmden]
  rw [h2, h3]
  constructor
  · intro h; exact_mod_cast h
  · intro h; exact_mod_cast h

/-- The margin test, spelled out as a quantified proposition over ℚ. -/
theorem marginOK_iff (names : List String) (margin : ℚ) (ms : List Bool) (maxN : String) :
    marginOK names margin ms maxN = true ↔
      ∀ n ∈ pyDictKeys names, n ≠ maxN →
        (countsOf names ms n : ℚ) + margin * (names.count maxN : ℚ)
          < (maxCount names ms : ℚ) := by
  unfold marginOK
  rw [List.all_eq_true]
  constructor
  · intro h n hn hne
    have := h n (List.mem_filter.mpr ⟨hn, by simpa using hne⟩)
    exact (addMulLt_iff _ _ _ _).mp this
  · intro h n hn
    obtain ⟨hn1, hn2⟩ := List.mem_filter.mp hn
    have hne : n ≠ maxN := by simpa using hn2
    exact (addMulLt_iff _ _ _ _).mpr (h n hn1 hne)

/-- The margin test is antitone in the margin constant. -/
theorem marginOK_mono (names : List String) (ms : List Bool) (maxN : String)
    {m m' : ℚ} (hm : m' ≤ m) (h : marginOK names m ms maxN = true) :
    marginOK names m' ms maxN = true := by
  rw [marginOK_iff] at h ⊢
  intro n hn hne
  refine lt_of_le_of_lt ?_ (h n hn hne)
  have hc : (0 : ℚ) ≤ (names.count maxN : ℚ) := by positivity
  have := mul_le_mul_of_nonneg_right hm hc
  linarith

/-- A fold that ignores its accumulator computes the image of the last
element. -/
theorem foldl_const_last {α β : Type} (f : α → β) :
    ∀ (l : List α) (st : β) (h : l ≠ []),
      l.foldl (fun _ e => f e) st = f (l.getLast h) := by
  intro l
  induction l with
  | nil => intro st h; exact absurd rfl h
  | cons a t ih =>
    intro st h
    cases t with
    | nil => rfl
    | cons b t' =>
      rw [List.foldl_cons, ih (f a) (by simp), List.getLast_cons_cons]

/-- The running best of `argmaxPair` only grows, and dominates every
scanned element. -/
theorem argmaxPair_snd_max :
    ∀ (xs : List ℚ) (i : Nat) (b : Nat × ℚ),
      b.2 ≤ (argmaxPair xs i b).2 ∧ ∀ x ∈ xs, x ≤ (argmaxPair xs i b).2 := by
  intro xs
  induction xs with
  | nil => intro i b; exact ⟨le_refl _, by simp⟩
  | cons x t ih =>
    intro i b
    simp only [argmaxPair]
    by_cases h : b.2 < x
    · rw [if_pos h]
      obtain ⟨h1, h2⟩ := ih (i + 1) (i, x)
      refine ⟨le_of_lt (lt_of_lt_of_le h h1), ?_⟩
      intro y hy
      rcases List.mem_cons.mp hy with rfl | hy
      · exact h1
      · exact h2 y hy
    · rw [if_neg h]
      obtain ⟨h1, h2⟩ := ih (i + 1) b
      refine ⟨h1, ?_⟩
      intro y hy
      rcases List.mem_cons.mp hy with rfl | hy
      · exact le_trans (not_lt.mp h) h1
      · exact h2 y hy

/-- The index returned by `argmaxPair` addresses its returned value, for
any prefix consistent with the accumulator. -/
theorem argmaxPair_getD :
    ∀ (xs pre : List ℚ) (b : Nat × ℚ),
      b.1 < pre.length → pre.getD b.1 0 = b.2 →
      (pre ++ xs).getD (argmaxPair xs pre.length b).1 0 = (argmaxPair xs pre.length b).2 := by
  intro xs
  induction xs with
  | nil =>
    intro pre b hlt hv
    simpa [argmaxPair] using hv
  | cons x t ih =>
    intro pre b hlt hv
    simp only [argmaxPair]
    by_cases h : b.2 < x
    · rw [if_pos h]
      have key := ih (pre ++ [x]) (pre.length, x) (by simp)
        (by rw [List.getD_append_right pre [x] 0 pre.length (le_refl _)]; simp)
      have hl : (pre ++ [x]).length = pre.length + 1 := by simp
      rw [hl, List.append_assoc] at key
      simpa using key
    · rw [if_neg h]
      have key := ih (pre ++ [x]) b
        (by rw [List.length_append]; exact Nat.lt_succ_of_lt hlt)
        (by rw [List.getD_append pre [x] 0 b.1 hlt]; exact hv)
      have hl : (pre ++ [x]).length = pre.length + 1 := by simp
      rw [hl, List.append_assoc] at key
      simpa using key

/-- `predictions[np.argmax(predictions)]` dominates every prediction. -/
theorem getD_argmaxIdx_max (l : List ℚ) : ∀ x ∈ l, x ≤ l.getD (argmaxIdx l) 0 := by
  cases l with
  | nil => simp
  | cons y ys =>
    intro x hx
    have hA := argmaxPair_snd_max ys 1 (0, y)
    have hB := argmaxPair_getD ys [y] (0, y) (by simp) (by simp)
    have hcons : ([y] ++ ys) = y :: ys := rfl
    have h1 : ([y] : List ℚ).length = 1 := rfl
    rw [h1, hcons] at hB
    rw [argmaxIdx, hB]
    rcases List.mem_cons.mp hx with rfl | hx
    · exact hA.1
    · exact hA.2 x hx

/-- An empty slice: equal endpoints. -/
theorem sliceLen_self (n : Nat) (a : Int) : sliceLen n a a = 0 :=
  Nat.sub_self _

/-- `normIdx` never exceeds the axis length. -/
theorem normIdx_le (n : Nat) (i : Int) : normIdx n i ≤ n := by
  unfold normIdx
  by_cases h : i < 0
  · rw [if_pos h]
    have : i + n ≤ (n : Int) := by linarith
    omega
  · rw [if_neg h]
    exact Nat.min_le_right _ _

/-- A slice whose start already lies at or beyond the axis end is empty. -/
theorem sliceLen_beyond (n : Nat) (a b : Int) (h0 : 0 ≤ a) (hn : (n : Int) ≤ a) :
    sliceLen n a b = 0 := by
  unfold sliceLen
  have ha : normIdx n a = n := by
    unfold normIdx
    rw [if_neg (not_lt.mpr h0)]
    have : n ≤ a.toNat := by omega
    omega
  rw [ha]
  exact Nat.sub_eq_zero_of_le (normIdx_le n b)

/-- A degenerate or out-of-positive-range box has an empty roi. -/
theorem roiSize_eq_zero (img : Image) (b : BBox)
    (h : b.xmin = b.xmax ∨ b.ymin = b.ymax
      ∨ (0 ≤ b.xmin ∧ (img.w : Int) ≤ b.xmin)
      ∨ (0 ≤ b.ymin ∧ (img.h : Int) ≤ b.ymin)) :
    roiSize img b = 0 := by
  unfold roiSize
  rcases h with h | h | ⟨h1, h2⟩ | ⟨h1, h2⟩
  · rw [h, sliceLen_self]; ring
  · rw [h, sliceLen_self]; ring
  · rw [sliceLen_beyond img.w _ _ h1 h2]; ring
  · rw [sliceLen_beyond img.h _ _ h1 h2]; ring

/-! ## Claim C1: the vote-margin acceptance rule -/

/-- The concrete gallery and match vector refuting the claim: 3 entries for
`"A"`, 20 for `"B"`; the face matches all 3 `"A"` entries and 2 `"B"`
entries. -/
def c1names : List String := ["A", "A", "A"] ++ List.replicate 20 "B"

def c1matches : List Bool := [true, true, true, true, true] ++ List.replicate 18 false

/-- C1 counterexample: at margin 0.20 the code accepts `"A"` (its test
`3 > 2 + 0.20 * name_count["A"] = 2.6` passes) although the claim's test
`3 > 2 + 0.20 * name_count["B"] = 6` fails, so acceptance is NOT equivalent
to the claim's inequality over the competitor's population. -/
theorem c1_counterexample :
    pyMaxName c1names c1matches = some "A"
    ∧ resolveFromMatches c1names NAME_THRESHOLD c1matches = some "A"
    ∧ specMarginAccept c1names NAME_THRESHOLD c1matches "A" = false := by
  refine ⟨by decide, by decide, by decide⟩

/-- C1 amended: when at least one gallery entry matches and `maxN` is the
top-voted label, the outcome is `maxN` iff for every other label `L` with
vote count `v`, `max_value > v + margin * name_count[max_name]` — the
margin is scaled by the WINNING label's total gallery population, not the
competitor's — and the outcome is no-decision iff that inequality fails for
some other label. -/
theorem c1_amended (names : List String) (margin : ℚ) (ms : List Bool) (maxN : String)
    (h1 : ms.any id = true) (h2 : pyMaxName names ms = some maxN) :
    (resolveFromMatches names margin ms = some maxN ↔
      ∀ n ∈ pyDictKeys names, n ≠ maxN →
        (countsOf names ms n : ℚ) + margin * (names.count maxN : ℚ)
          < (maxCount names ms : ℚ))
    ∧ (resolveFromMatches names margin ms = none ↔
      ¬ ∀ n ∈ pyDictKeys names, n ≠ maxN →
        (countsOf names ms n : ℚ) + margin * (names.count maxN : ℚ)
          < (maxCount names ms : ℚ)) := by
  unfold resolveFromMatches
  rw [h1, h2]
  simp only [if_true]
  by_cases hok : marginOK names margin ms maxN = true
  · rw [if_pos hok]
    rw [marginOK_iff] at hok
    constructor
    · exact ⟨fun _ => hok, fun _ => rfl⟩
    · exact ⟨fun h => absurd h (by simp), fun h => absurd hok h⟩
  · rw [if_neg hok]
    rw [marginOK_iff] at hok
    constructor
    · exact ⟨fun h => absurd h (by simp), fun h => absurd h hok⟩
    · exact ⟨fun _ => hok, fun _ => rfl⟩

/-- Witness for `c1_amended` on a concrete input: gallery
`["A", "A", "B"]`, matches `[true, true, true]`; the condition holds
(`2 > 1 + 0.2 * 2`), and indeed the outcome is `"A"`. -/
theorem c1_amended_witness :
    resolveFromMatches ["A", "A", "B"] NAME_THRESHOLD [true, true, true] = some "A" :=
  (c1_amended ["A", "A", "B"] NAME_THRESHOLD [true, true, true] "A" (by decide) (by decide)).1.mpr
    ((marginOK_iff ["A", "A", "B"] NAME_THRESHOLD [true, true, true] "A").mp (by decide))

/-! ## Claim C2: no match yields the string "Unknown" -/

/-- C2: for every gallery and embedding, if no gallery entry is within the
comparison tolerance of the embedding, the resolver's outcome is the string
`"Unknown"` (`some "Unknown"`), not no-decision (`none`). -/
theorem c2_no_match_unknown {α : Type} (dist : α → α → ℚ) (gallery : List α) (e : α)
    (tol : ℚ) (names : List String) (margin : ℚ)
    (h : ∀ g ∈ gallery, ¬ dist g e ≤ tol) :
    resolveFromMatches names margin (compare_faces dist gallery e tol) = some "Unknown" := by
  have hm : (compare_faces dist gallery e tol).any id = false := by
    rw [List.any_eq_false]
    intro b hb
    rw [compare_faces, List.mem_map] at hb
    obtain ⟨g, hg, rfl⟩ := hb
    simpa using h g hg
  unfold resolveFromMatches
  rw [hm]
  simp

/-- Witness for `c2_no_match_unknown`: a one-entry gallery at distance 1
from the probe embedding, tolerance 0.57. -/
theorem c2_witness :
    resolveFromMatches ["alice"] NAME_THRESHOLD
      (compare_faces (fun _ _ : Nat => (1 : ℚ)) [0] 0 COMPARE_FACES_TOLERANCE)
      = some "Unknown" :=
  c2_no_match_unknown (fun _ _ : Nat => (1 : ℚ)) [0] 0 COMPARE_FACES_TOLERANCE
    ["alice"] NAME_THRESHOLD (by decide)

/-! ## Claim C8: the margin test is antitone in the margin constant -/

/-- C8: for a fixed gallery and fixed match results, shrinking the margin
constant preserves any resolved outcome: in particular an identity accepted
at margin `m` is accepted at every `m' ≤ m`, and (contrapositive) raising
the margin can only turn an accepted identity into a no-decision, never
turn a no-decision or `"Unknown"` into an accepted identity. -/
theorem c8_margin_antitone (names : List String) (ms : List Bool) (m m' : ℚ)
    (x : String) (hm : m' ≤ m)
    (hx : resolveFromMatches names m ms = some x) :
    resolveFromMatches names m' ms = some x := by
  cases h : ms.any id with
  | false =>
    have e1 : resolveFromMatches names m ms = some "Unknown" := by
      unfold resolveFromMatches
      rw [h]
      simp
    have e2 : resolveFromMatches names m' ms = some "Unknown" := by
      unfold resolveFromMatches
      rw [h]
      simp
    rw [e1] at hx
    rw [e2, hx]
  | true =>
    cases hmx : pyMaxName names ms with
    | none =>
      have e1 : resolveFromMatches names m ms = none := by
        unfold resolveFromMatches
        rw [h, hmx]
        rfl
      rw [e1] at hx
      cases hx
    | some maxN =>
      have e1 : resolveFromMatches names m ms
          = if marginOK names m ms maxN then some maxN else none := by
        unfold resolveFromMatches
        rw [h, hmx]
        rfl
      have e2 : resolveFromMatches names m' ms
          = if marginOK names m' ms maxN then some maxN else none := by
        unfold resolveFromMatches
        rw [h, hmx]
        rfl
      rw [e1] at hx
      rw [e2]
      by_cases hok : marginOK names m ms maxN = true
      · rw [if_pos hok] at hx
        rw [if_pos (marginOK_mono names ms maxN hm hok)]
        exact hx
      · rw [if_neg hok] at hx
        cases hx

/-- Witness for `c8_margin_antitone`: gallery `["A", "A", "B"]`, matches
`[true, true, true]`, accepted at margin 0.20, hence accepted at margin
0.10. -/
theorem c8_witness :
    resolveFromMatches ["A", "A", "B"] (Rat.divInt 1 10) [true, true, true] = some "A" :=
  c8_margin_antitone ["A", "A", "B"] [true, true, true] NAME_THRESHOLD (Rat.divInt 1 10) "A"
    (by rw [NAME_THRESHOLD, Rat.divInt_eq_div, Rat.divInt_eq_div]; norm_num) (by decide)

/-! ## Claim C9: the two concrete voting scenarios -/

def scenarioAnames : List String := List.replicate 10 "Alice" ++ List.replicate 2 "Bob"

def scenarioAmatches : List Bool :=
  List.replicate 6 true ++ List.replicate 4 false ++ [true, false]

def scenarioBnames : List String := List.replicate 5 "Alice" ++ List.replicate 5 "Bob"

def scenarioBmatches : List Bool :=
  List.replicate 3 true ++ List.replicate 2 false ++ List.replicate 3 true
    ++ List.replicate 2 false

/-- C9: with margin 0.20, a gallery of 10 `"Alice"` and 2 `"Bob"` entries
with 6 Alice votes and 1 Bob vote resolves to `"Alice"`, and a gallery of
5 `"Alice"` and 5 `"Bob"` entries with 3 votes each resolves to
no-decision. -/
theorem c9_scenarios :
    resolveFromMatches scenarioAnames NAME_THRESHOLD scenarioAmatches = some "Alice"
    ∧ resolveFromMatches scenarioBnames NAME_THRESHOLD scenarioBmatches = none := by
  refine ⟨by decide, by decide⟩

/-! ## Claim C3: unreadable source image -/

/-- A concrete collaborator set whose `imread` fails on `"bad.jpg"`. -/
def c3collab : Collab :=
  { imread := fun p => if p = "good.jpg" then some ⟨10, 10, 0⟩ else none
    faceLocations := fun _ => []
    focusMeasure := fun _ _ => 0
    faceEncodings := fun _ _ => []
    dist := fun _ _ => 1 }

def c3gallery : GalleryData := ⟨["alice"], [0]⟩

/-- C3 counterexample for the embedding path: a batch whose first image is
unreadable.  `face_det_rec.py` unpacks `img.shape` with no `None` check
(line 86), so the whole batch aborts with an `AttributeError` — no box of
the unreadable image is marked and the remaining (readable) image is never
processed — refuting the claim that BOTH paths mark no-decision and
continue. -/
theorem c3_counterexample :
    processAll c3collab c3gallery (some "alice")
      [⟨"bad.jpg", [⟨"person", ⟨0, 0, 8, 8⟩, none⟩]⟩, ⟨"good.jpg", []⟩]
      = Except.error "AttributeError" := by rfl

/-- C3 amended: only the classifier path has the claimed behaviour.  In
`person_classifier_server.py` an unreadable image marks `face = None` for
every eligible person box of that record and the batch continues with the
remaining records; in `face_det_rec.py` an unreadable image raises and the
whole batch aborts with an error. -/
theorem c3_amended (cc : CCollab) (lm : List String) (mp : ℚ) (r : CRecord)
    (rs : List CRecord) (c : Collab) (g : GalleryData) (st : Option String)
    (er : ImageRecord) (ers : List ImageRecord)
    (hC : cc.imread r.image = none) (hE : c.imread er.image = none) :
    detect_faces cc lm mp (r :: rs)
        = classifyRecord cc lm mp r :: detect_faces cc lm mp rs
    ∧ (∀ lab ∈ r.labels, lab.name = "person" →
        (classifyLabel cc lm mp r.image lab).face = some none)
    ∧ processAll c g st (er :: ers) = Except.error "AttributeError" := by
  refine ⟨rfl, ?_, ?_⟩
  · intro lab _ hlab
    unfold classifyLabel
    rw [if_pos hlab, hC]
  · show (do
      let p ← processImage c g st er
      let q ← processAll c g p.2 ers
      Except.ok (p.1 :: q.1, q.2)) = Except.error "AttributeError"
    unfold processImage
    rw [hE]
    rfl

/-- Concrete witness data for `c3_amended`. -/
def c3wcc : CCollab := { imread := fun _ => none, infer := fun _ => [] }

def c3wrec : CRecord := ⟨"bad.jpg", [⟨"person", ⟨0, 0, 8, 8⟩, none, none⟩]⟩

/-- Witness for `c3_amended` at concrete inputs. -/
theorem c3_amended_witness :
    detect_faces c3wcc ["alice"] (Rat.divInt 1 2) [c3wrec]
        = [classifyRecord c3wcc ["alice"] (Rat.divInt 1 2) c3wrec]
    ∧ (∀ lab ∈ c3wrec.labels, lab.name = "person" →
        (classifyLabel c3wcc ["alice"] (Rat.divInt 1 2) c3wrec.image lab).face = some none)
    ∧ processAll c3collab c3gallery none [⟨"bad.jpg", []⟩]
        = Except.error "AttributeError" :=
  c3_amended c3wcc ["alice"] (Rat.divInt 1 2) c3wrec [] c3collab c3gallery none
    ⟨"bad.jpg", []⟩ [] rfl (by decide)

/-! ## Claim C4: empty embedding list leaves a stale name -/

/-- Collaborators whose embedding extractor returns an empty list for a
face that is found and sharp. -/
def c4collab : Collab :=
  { imread := fun _ => some ⟨10, 10, 0⟩
    faceLocations := fun _ => [⟨0, 2, 2, 0⟩]
    focusMeasure := fun _ _ => 2000
    faceEncodings := fun _ _ => []
    dist := fun _ _ => 1 }

def c4gallery : GalleryData := ⟨["alice", "bob"], [0, 1]⟩

def c4label : DetLabel := ⟨"person", ⟨0, 0, 8, 8⟩, none⟩

/-- C4 failing input, evaluated: first eligible box of the batch, readable
image, non-empty roi, face found, focus 2000 ≥ 1000, but
`face_recognition.face_encodings` returns `[]`.  The per-encoding loop body
never runs, so `label['face'] = name` stores the stale value of the Python
variable `name` — at this point the last gallery name `"bob"`, left over
from the module-level `for name in data['names']` loop (face_det_rec.py
lines 67-68) — not `None` as the claim (and evident intent) says. -/
theorem c4_stale_name :
    (personStep c4collab c4gallery ⟨10, 10, 0⟩ (some "bob") c4label).1.face
        = some (some "bob")
    ∧ (personStep c4collab c4gallery ⟨10, 10, 0⟩ (some "bob") c4label).1.face
        ≠ some none := by
  refine ⟨by decide, by decide⟩

/-! ## Claim C5: the classifier resolution of one box -/

/-- C5: for a person box whose image reads successfully and whose region is
non-empty, the classifier writes `faceProba = p` where `p` is the arg-max
probability of the inference output (it dominates every entry of the
vector), and `face` is the label at the arg-max index when `p` reaches the
configured minimum and `None` otherwise; a box whose image cannot be read
or whose region is empty gets `face = None` and no `faceProba`. -/
theorem c5_classifier (cc : CCollab) (lm : List String) (mp : ℚ) (path : String)
    (lab : CLabel) (hn : lab.name = "person") (hp : lab.faceProba = none) :
    (cc.imread path = none →
      (classifyLabel cc lm mp path lab).face = some none
      ∧ (classifyLabel cc lm mp path lab).faceProba = none)
    ∧ (∀ img, cc.imread path = some img → roiSize img lab.box = 0 →
      (classifyLabel cc lm mp path lab).face = some none
      ∧ (classifyLabel cc lm mp path lab).faceProba = none)
    ∧ (∀ img, cc.imread path = some img → roiSize img lab.box ≠ 0 →
      (classifyLabel cc lm mp path lab).faceProba
          = some ((cc.infer (labelRoi img lab.box)).getD
              (argmaxIdx (cc.infer (labelRoi img lab.box))) 0)
      ∧ (∀ x ∈ cc.infer (labelRoi img lab.box),
          x ≤ (cc.infer (labelRoi img lab.box)).getD
              (argmaxIdx (cc.infer (labelRoi img lab.box))) 0)
      ∧ (mp ≤ (cc.infer (labelRoi img lab.box)).getD
              (argmaxIdx (cc.infer (labelRoi img lab.box))) 0 →
          (classifyLabel cc lm mp path lab).face
            = some (some (lm.getD (argmaxIdx (cc.infer (labelRoi img lab.box))) "")))
      ∧ ((cc.infer (labelRoi img lab.box)).getD
              (argmaxIdx (cc.infer (labelRoi img lab.box))) 0 < mp →
          (classifyLabel cc lm mp path lab).face = some none)) := by
  unfold classifyLabel
  rw [if_pos hn]
  refine ⟨?_, ?_, ?_⟩
  · intro h
    rw [h]
    exact ⟨rfl, hp⟩
  · intro img h hz
    rw [h]
    simp only [if_pos hz]
    exact ⟨trivial, hp⟩
  · intro img h hz
    rw [h]
    simp only [if_neg hz]
    refine ⟨trivial, getD_argmaxIdx_max _, ?_, ?_⟩
    · intro hge
      simp only [if_pos hge]
    · intro hlt
      rw [if_neg (not_le.mpr hlt)]

/-- Concrete collaborators for the C5 witness: inference returns the
probability vector (0.3, 0.42, 0.28), Scenario C of the specification. -/
def c5wcc : CCollab :=
  { imread := fun _ => some ⟨10, 10, 0⟩
    infer := fun _ => [Rat.divInt 3 10, Rat.divInt 42 100, Rat.divInt 28 100] }

def c5wlab : CLabel := ⟨"person", ⟨0, 0, 8, 8⟩, none, none⟩

/-- Witness for `c5_classifier`: arg-max probability 0.42 below minimum
0.50 gives no-decision with `faceProba = 0.42` still reported. -/
theorem c5_witness :
    (classifyLabel c5wcc ["alice", "bob", "carol"] (Rat.divInt 1 2) "img.jpg" c5wlab).faceProba
        = some ((c5wcc.infer (labelRoi ⟨10, 10, 0⟩ c5wlab.box)).getD
            (argmaxIdx (c5wcc.infer (labelRoi ⟨10, 10, 0⟩ c5wlab.box))) 0)
    ∧ (classifyLabel c5wcc ["alice", "bob", "carol"] (Rat.divInt 1 2) "img.jpg" c5wlab).face
        = some none := by
  have h := (c5_classifier c5wcc ["alice", "bob", "carol"] (Rat.divInt 1 2) "img.jpg"
    c5wlab rfl rfl).2.2 ⟨10, 10, 0⟩ rfl (by decide)
  exact ⟨h.1, h.2.2.2 (by decide)⟩

/-! ## Claim C6: the blur gate -/

/-- C6: for a person box with non-empty roi and a detected face, a focus
measure strictly below 1000 forces the outcome `None` for that box and no
embedding is computed (the result does not depend on the embedding
extractor at all); a focus measure at or above 1000 proceeds to embedding
extraction and resolution. -/
theorem c6_blur_gate (c : Collab) (g : GalleryData) (img : Image) (st : Option String)
    (lab : DetLabel) (fb : FaceBox) (rest : List FaceBox)
    (hn : lab.name = "person")
    (hroi : roiSize img lab.box ≠ 0)
    (hfl : c.faceLocations (labelRoi img lab.box) = fb :: rest) :
    (c.focusMeasure (labelRoi img lab.box) fb < FOCUS_MEASURE_THRESHOLD →
      (personStep c g img st lab).1.face = some none
      ∧ ∀ fe, personStep { c with faceEncodings := fe } g img st lab
          = personStep c g img st lab)
    ∧ (FOCUS_MEASURE_THRESHOLD ≤ c.focusMeasure (labelRoi img lab.box) fb →
      (personStep c g img st lab).1.face
        = some ((c.faceEncodings (labelRoi img lab.box) (fb :: rest)).foldl
            (fun _ e => resolveEncoding c g e) st)) := by
  constructor
  · intro hfm
    constructor
    · unfold personStep
      rw [if_pos hn, if_neg hroi, hfl]
      simp only [if_pos hfm]
    · intro fe
      unfold personStep
      simp only [if_pos hn, if_neg hroi]
      rw [show ({ c with faceEncodings := fe } : Collab).faceLocations = c.faceLocations from rfl,
        hfl]
      rw [show ({ c with faceEncodings := fe } : Collab).focusMeasure = c.focusMeasure from rfl]
      simp only [if_pos hfm]
  · intro hfm
    unfold personStep
    rw [if_pos hn, if_neg hroi, hfl]
    simp only [if_neg (not_lt.mpr hfm)]

/-- Concrete collaborators for the C6 witness: focus measure 800, below
the floor 1000 (Scenario D of the specification). -/
def c6wcollab : Collab :=
  { imread := fun _ => some ⟨10, 10, 0⟩
    faceLocations := fun _ => [⟨0, 2, 2, 0⟩]
    focusMeasure := fun _ _ => 800
    faceEncodings := fun _ _ => [0]
    dist := fun _ _ => 0 }

/-- Witness for `c6_blur_gate`: sharpness 800 with floor 1000 gives
no-decision. -/
theorem c6_witness :
    (personStep c6wcollab c3gallery ⟨10, 10, 0⟩ none
      ⟨"person", ⟨0, 0, 8, 8⟩, none⟩).1.face = some none :=
  ((c6_blur_gate c6wcollab c3gallery ⟨10, 10, 0⟩ none ⟨"person", ⟨0, 0, 8, 8⟩, none⟩
    ⟨0, 2, 2, 0⟩ [] rfl (by decide) rfl).1 (by decide)).1

/-! ## Claim C7: out-of-bounds and degenerate boxes -/

/-- Collaborators under which an all-negative box is nonetheless processed
to a positive identification. -/
def c7collab : Collab :=
  { imread := fun _ => some ⟨10, 10, 0⟩
    faceLocations := fun _ => [⟨0, 2, 2, 0⟩]
    focusMeasure := fun _ _ => 2000
    faceEncodings := fun _ _ => [0]
    dist := fun _ _ => 0 }

def c7label : DetLabel := ⟨"person", ⟨-3, -3, -1, -1⟩, none⟩

/-- C7 counterexample: the box `(-3,-3)-(-1,-1)` lies entirely outside the
10×10 image (all coordinates negative), yet numpy interprets negative slice
endpoints relative to the END of each axis, so `img[-3:-1, -3:-1]` is a
non-empty 2×2 region near the bottom-right corner; processing continues and
here resolves to `"alice"`, refuting "always yields no-decision". -/
theorem c7_counterexample :
    (c7label.box.xmax < 0 ∧ c7label.box.ymax < 0)
    ∧ roiSize ⟨10, 10, 0⟩ c7label.box ≠ 0
    ∧ (personStep c7collab c3gallery ⟨10, 10, 0⟩ (some "alice") c7label).1.face
        = some (some "alice") := by
  refine ⟨⟨by decide, by decide⟩, by decide, by decide⟩

/-- C7 amended: a degenerate box (`xmin = xmax` or `ymin = ymax`), or a box
lying entirely at or beyond the image's positive extent (non-negative
`xmin ≥ width` or `ymin ≥ height`), yields an empty region and hence
no-decision (`face = None`) in both paths, without a crash; boxes with
negative coordinates are instead re-interpreted from the ends of the axes
and may be processed normally. -/
theorem c7_amended (c : Collab) (g : GalleryData) (img : Image) (st : Option String)
    (lab : DetLabel) (cc : CCollab) (lm : List String) (mp : ℚ) (path : String)
    (clab : CLabel)
    (hdeg : lab.box.xmin = lab.box.xmax ∨ lab.box.ymin = lab.box.ymax
      ∨ (0 ≤ lab.box.xmin ∧ (img.w : Int) ≤ lab.box.xmin)
      ∨ (0 ≤ lab.box.ymin ∧ (img.h : Int) ≤ lab.box.ymin))
    (hn : lab.name = "person")
    (hcn : clab.name = "person") (hcb : clab.box = lab.box)
    (hcread : cc.imread path = some img) :
    (personStep c g img st lab).1.face = some none
    ∧ (personStep c g img st lab).2 = st
    ∧ (classifyLabel cc lm mp path clab).face = some none
    ∧ (classifyLabel cc lm mp path clab).faceProba = clab.faceProba := by
  have hz : roiSize img lab.box = 0 := roiSize_eq_zero img lab.box hdeg
  have e1 : personStep c g img st lab = ({ lab with face := some none }, st) := by
    unfold personStep
    rw [if_pos hn, if_pos hz]
  have e2 : classifyLabel cc lm mp path clab = { clab with face := some none } := by
    unfold classifyLabel
    rw [if_pos hcn, hcread]
    simp only [hcb, if_pos hz]
  rw [e1, e2]
  exact ⟨rfl, rfl, rfl, rfl⟩

/-- Witness for `c7_amended`: a degenerate box with `xmin = xmax = 5`. -/
theorem c7_amended_witness :
    (personStep c7collab c3gallery ⟨10, 10, 0⟩ none
        ⟨"person", ⟨5, 0, 5, 8⟩, none⟩).1.face = some none
    ∧ (personStep c7collab c3gallery ⟨10, 10, 0⟩ none
        ⟨"person", ⟨5, 0, 5, 8⟩, none⟩).2 = none
    ∧ (classifyLabel c5wcc ["alice"] (Rat.divInt 1 2) "img.jpg"
        ⟨"person", ⟨5, 0, 5, 8⟩, none, none⟩).face = some none
    ∧ (classifyLabel c5wcc ["alice"] (Rat.divInt 1 2) "img.jpg"
        ⟨"person", ⟨5, 0, 5, 8⟩, none, none⟩).faceProba = none :=
  c7_amended c7collab c3gallery ⟨10, 10, 0⟩ none ⟨"person", ⟨5, 0, 5, 8⟩, none⟩
    c5wcc ["alice"] (Rat.divInt 1 2) "img.jpg" ⟨"person", ⟨5, 0, 5, 8⟩, none, none⟩
    (Or.inl rfl) rfl rfl rfl rfl

/-! ## Claim C10: several faces in one person region -/

/-- C10: when the face detector finds the faces `fb :: rest` inside a
person region, the blur gate consults the focus measure only on the first
face `fb` (any collaborators agreeing there and on the other used calls
give the identical result), embeddings are requested for the full list
`fb :: rest`, and the `face` value written onto the box is the resolver's
decision for the LAST embedding of the returned list — each loop iteration
overwrites the previous decision. -/
theorem c10_multi_face (c : Collab) (g : GalleryData) (img : Image) (st : Option String)
    (lab : DetLabel) (fb : FaceBox) (rest : List FaceBox) (es : List Nat)
    (hn : lab.name = "person")
    (hroi : roiSize img lab.box ≠ 0)
    (hfl : c.faceLocations (labelRoi img lab.box) = fb :: rest)
    (hfm : FOCUS_MEASURE_THRESHOLD ≤ c.focusMeasure (labelRoi img lab.box) fb)
    (hes : c.faceEncodings (labelRoi img lab.box) (fb :: rest) = es)
    (hne : es ≠ []) :
    (personStep c g img st lab).1.face
        = some (resolveEncoding c g (es.getLast hne))
    ∧ ∀ c' : Collab,
        c'.faceLocations (labelRoi img lab.box) = fb :: rest →
        c'.focusMeasure (labelRoi img lab.box) fb = c.focusMeasure (labelRoi img lab.box) fb →
        c'.faceEncodings (labelRoi img lab.box) (fb :: rest) = es →
        c'.dist = c.dist →
        personStep c' g img st lab = personStep c g img st lab := by
  have estep : ∀ c'' : Collab, c''.faceLocations (labelRoi img lab.box) = fb :: rest →
      FOCUS_MEASURE_THRESHOLD ≤ c''.focusMeasure (labelRoi img lab.box) fb →
      personStep c'' g img st lab
        = ({ lab with face := some ((c''.faceEncodings (labelRoi img lab.box)
              (fb :: rest)).foldl (fun _ e => resolveEncoding c'' g e) st) },
            (c''.faceEncodings (labelRoi img lab.box) (fb :: rest)).foldl
              (fun _ e => resolveEncoding c'' g e) st) := by
    intro c'' hfl'' hfm''
    unfold personStep
    rw [if_pos hn, if_neg hroi, hfl'']
    simp only [if_neg (not_lt.mpr hfm'')]
  constructor
  · rw [estep c hfl hfm, hes]
    simp only
    rw [foldl_const_last (resolveEncoding c g) es st hne]
  · intro c' hfl' hfm' hes' hdist'
    rw [estep c hfl hfm, estep c' hfl' (by rw [hfm']; exact hfm), hes, hes']
    have : resolveEncoding c' g = resolveEncoding c g := by
      funext e
      unfold resolveEncoding
      rw [hdist']
    rw [this]

/-- Collaborators for the C10 witness: two faces found, and two embeddings
`[0, 1]` returned; embedding 1 resolves to `"bob"`, embedding 0 to
`"alice"`. -/
def c10wcollab : Collab :=
  { imread := fun _ => some ⟨10, 10, 0⟩
    faceLocations := fun _ => [⟨0, 2, 2, 0⟩, ⟨4, 8, 8, 4⟩]
    focusMeasure := fun _ _ => 2000
    faceEncodings := fun _ _ => [0, 1]
    dist := fun a b => if a = b then 0 else 1 }

/-- Witness for `c10_multi_face`: with gallery `["alice", "bob"]` and
embeddings `[0, 1]` returned, the box's `face` is the decision for the
last embedding `1`. -/
theorem c10_witness :
    (personStep c10wcollab c4gallery ⟨10, 10, 0⟩ none
        ⟨"person", ⟨0, 0, 8, 8⟩, none⟩).1.face
      = some (resolveEncoding c10wcollab c4gallery
          (([0, 1] : List Nat).getLast (by decide))) :=
  (c10_multi_face c10wcollab c4gallery ⟨10, 10, 0⟩ none ⟨"person", ⟨0, 0, 8, 8⟩, none⟩
    ⟨0, 2, 2, 0⟩ [⟨4, 8, 8, 4⟩] [0, 1] rfl (by decide) rfl (by decide) rfl (by decide)).1

end SZ
